import Mathlib

/-!
Shallow embedding of `create_ebi_search_index_data.py` (EBISPOT/gwas-ebi-search-index).

The script fetches GWAS study rows from a database, reshapes them into the EBI
Search index JSON document, collects data-quality messages in a shared list
`studies_missing_data`, and reports them.  Here the row data, the per-row loop
body of `format_data`, the header construction of `_populate_header_data`, and
the count check of `data_check` / `_find_data_errors` are translated into Lean.

Database values that Python sees as column values or `None` are modelled as
`Option String` (dates as `Option PyDate`).  Python string concatenation with
`None` raises `TypeError`, and calling `.split` on `None` raises
`AttributeError`; both are modelled by the `RowOutcome.crash` constructor, which
makes the surrounding `format_data` abort (there is no try/except around the
loop in the source).  The mutable class attribute `studies_missing_data` is
modelled as explicitly threaded state: every function takes the current log and
returns the new one.
-/

namespace EbiSearchIndex

/-- A calendar date as carried by a fetched Oracle DATE / Python `datetime`. -/
structure PyDate where
  year : Nat
  month : Nat
  day : Nat
deriving Repr, DecidableEq

/-- Zero-pad the decimal representation of `n` to width `w`,
as Python `strftime` does for its numeric directives. -/
def padZero (w n : Nat) : String :=
  let s := toString n
  String.mk (List.replicate (w - s.length) '0') ++ s

/-- Python `date.strftime('%Y/%m/%d')`. -/
def strftimeYMD (d : PyDate) : String :=
  padZero 4 d.year ++ "/" ++ padZero 2 d.month ++ "/" ++ padZero 2 d.day

/-- Python `date.strftime('%d-%m-%Y')`, used by `_get_timestamp`. -/
def strftimeDMY (d : PyDate) : String :=
  padZero 2 d.day ++ "-" ++ padZero 2 d.month ++ "-" ++ padZero 4 d.year

/-- One row of the `ALL_STUDY_DATA_SQL` query, in the tuple order the loop of
`format_data` unpacks:
`pmid, title, date, journal_name, study_Id, accession_Id, initial_sample_size,
author_fullname, reported_trait, efo_short_form`. -/
structure StudyRecord where
  pmid : Option String
  title : Option String
  date : Option PyDate
  journal_name : Option String
  study_Id : Option String
  accession_Id : Option String
  initial_sample_size : Option String
  author_fullname : Option String
  reported_trait : Option String
  efo_short_form : Option String
deriving Repr, DecidableEq

/-- One `{'name': ..., 'value': ...}` dictionary of the `fields` list. -/
structure NamedField where
  name : String
  value : String
deriving Repr, DecidableEq

/-- One `{'dbkey': ..., 'dbname': ...}` cross-reference dictionary. -/
structure Xref where
  dbkey : String
  dbname : String
deriving Repr, DecidableEq

/-- One element of the `entries` list of the output document. -/
structure IndexEntry where
  fields : List NamedField
  cross_references : List Xref
deriving Repr, DecidableEq

/-- The output document: header keys built by `_populate_header_data`
plus the `entries` list filled in by `format_data`. -/
structure IndexDocument where
  entry_count : Nat
  name : String
  release : String
  release_date : String
  entries : List IndexEntry
deriving Repr, DecidableEq

/-- `url_published_field_prefix` from the source. -/
def url_published_field_prefix : String := "https://www.ebi.ac.uk/gwas/studies/"

/-- Greedy left-to-right scan for Python `s.split(', ')`: cut the character
list at each (non-overlapping, leftmost) occurrence of `", "`; `cur` is the
reversed current token. -/
def splitCommaSpaceAux : List Char → List Char → List (List Char)
  | [], cur => [cur.reverse]
  | [c], cur => [(c :: cur).reverse]
  | c :: d :: rest, cur =>
    if c = ',' ∧ d = ' ' then cur.reverse :: splitCommaSpaceAux rest []
    else splitCommaSpaceAux (d :: rest) (c :: cur)

/-- Python `s.split(', ')` as used on `efo_short_form`: splitting the empty
string gives `[""]`, and one token is produced per separator occurrence plus
one. -/
def pySplitCommaSpace (s : String) : List String :=
  (splitCommaSpaceAux s.data []).map (fun cs => String.mk cs)

/-- What one iteration of the `format_data` loop does with its row:
emit an entry, skip the row (`continue`), or raise an uncaught exception. -/
inductive RowOutcome where
  | emit (e : IndexEntry)
  | skip
  | crash (err : String)
deriving Repr, DecidableEq

/-- The part of the loop body after the description field has been set:
the `author_fullname`, `title`, `journal_name`, `date` required-field checks,
assembly of `fields_list`, and the cross-reference section.  `msgs` holds the
messages this row already appended (the inital-sample-size warning, when
`initial_sample_size` was null). -/
def processRowTail (r : StudyRecord) (accession_Id reported_trait desc : String)
    (msgs : List String) : List String × RowOutcome :=
  match r.author_fullname with
  | none => (msgs ++ ["Accession: " ++ accession_Id ++ " is missing the First Author name."],
             RowOutcome.skip)
  | some author_fullname =>
  match r.title with
  | none => (msgs ++ ["Accession: " ++ accession_Id ++ " is missing a publication title."],
             RowOutcome.skip)
  | some title =>
  match r.journal_name with
  | none => (msgs ++ ["Accession: " ++ accession_Id ++ " is missing a journal name."],
             RowOutcome.skip)
  | some journal_name =>
  match r.date with
  | none => (msgs ++ ["Accession: " ++ accession_Id ++ " is missing a publication date."],
             RowOutcome.skip)
  | some d =>
  -- `efo_xref` is a dict, never `None`, so the source's `if efo_xref is None`
  -- branch is dead and `efo_short_form.split(', ')` always runs; with a null
  -- `efo_short_form` Python raises AttributeError.
  match r.efo_short_form with
  | none => (msgs, RowOutcome.crash "AttributeError")
  | some efo_short_form =>
    let fields : List NamedField :=
      [⟨"id", accession_Id⟩,
       ⟨"reported_trait", reported_trait⟩,
       ⟨"description", desc⟩,
       ⟨"first_author", author_fullname⟩,
       ⟨"publication_title", title⟩,
       ⟨"journal_name", journal_name⟩,
       ⟨"publication_date", strftimeYMD d⟩,
       ⟨"url", url_published_field_prefix ++ accession_Id⟩]
    -- when `pmid` is None the source sets `pmid_xref['dbkey'] = ''` but the
    -- `cross_references_list.append(pmid_xref)` sits in the else branch, so
    -- nothing is appended for it.
    let pmidXrefs : List Xref :=
      match r.pmid with
      | none => []
      | some p => [⟨p, "PUBMED"⟩]
    let efoXrefs : List Xref :=
      (pySplitCommaSpace efo_short_form).map (fun t => Xref.mk t "EFO")
    (msgs, RowOutcome.emit ⟨fields, pmidXrefs ++ efoXrefs⟩)

/-- One full iteration of the `format_data` loop over a row: the
`accession_Id` and `reported_trait` required checks, the
`initial_sample_size` optional check building the description, then
`processRowTail`.  Returns the messages this row appends to
`studies_missing_data` (in order) together with its outcome. -/
def processRow (r : StudyRecord) : List String × RowOutcome :=
  match r.accession_Id with
  | none =>
    -- `'PMID: ' + pmid` raises TypeError when pmid is also None,
    -- before anything is appended to the log.
    match r.pmid with
    | none => ([], RowOutcome.crash "TypeError")
    | some p => (["PMID: " ++ p ++ " has a study missing an accession identifier."],
                 RowOutcome.skip)
  | some accession_Id =>
  match r.reported_trait with
  | none => (["Accession: " ++ accession_Id ++ " is missing a reported trait annotation."],
             RowOutcome.skip)
  | some reported_trait =>
  match r.initial_sample_size with
  | none =>
    -- the warning is appended first; then the description concatenation
    -- `'Study published by ' + author_fullname + ', PMID: ' + pmid`
    -- raises TypeError when author_fullname or pmid is None.
    let m := "Accession: " ++ accession_Id ++ " is missing inital sample size information."
    match r.author_fullname, r.pmid with
    | some author_fullname, some p =>
        processRowTail r accession_Id reported_trait
          ("Study published by " ++ author_fullname ++ ", PMID: " ++ p) [m]
    | some _, none => ([m], RowOutcome.crash "TypeError")
    | none, _ => ([m], RowOutcome.crash "TypeError")
  | some s =>
      processRowTail r accession_Id reported_trait ("Study of " ++ s) []

/-- Result of `format_data`: either the finished document or the uncaught
Python exception that aborted it. -/
inductive FDOutcome where
  | ok (doc : IndexDocument)
  | exn (err : String)
deriving Repr, DecidableEq

/-- State after `format_data`: outcome plus the final contents of the shared
`studies_missing_data` list (which the function also returns in the source). -/
structure FDResult where
  outcome : FDOutcome
  log : List String
deriving Repr, DecidableEq

/-- The `for ... in tqdm(self.data)` loop of `format_data`: threads the log,
accumulates `entries_list`, and aborts on the first uncaught exception. -/
def formatLoop : List StudyRecord → List String → List IndexEntry →
    Except String (List IndexEntry) × List String
  | [], log, acc => (Except.ok acc, log)
  | r :: rest, log, acc =>
    match processRow r with
    | (msgs, RowOutcome.crash e) => (Except.error e, log ++ msgs)
    | (msgs, RowOutcome.skip) => formatLoop rest (log ++ msgs) acc
    | (msgs, RowOutcome.emit e) => formatLoop rest (log ++ msgs) (acc ++ [e])

/-- `_populate_header_data`: `entry_count` is `len(self.data)` — the number of
fetched rows, not of emitted entries — and `release`/`release_date` are both
today's `DD-MM-YYYY` timestamp, passed in here as `today`. -/
def populate_header_data (dataLen : Nat) (today : String) : IndexDocument :=
  { entry_count := dataLen
    name := "GWAS Catalog"
    release := today
    release_date := today
    entries := [] }

/-- `format_data`: builds the header from the full fetched row list, runs the
loop, attaches the entries, and returns (writes) the accumulated log.  `log0`
is the content of `studies_missing_data` when the method is entered. -/
def format_data (today : String) (data : List StudyRecord) (log0 : List String) :
    FDResult :=
  let header := populate_header_data data.length today
  match formatLoop data log0 [] with
  | (Except.ok entries, log) => { outcome := FDOutcome.ok { header with entries := entries }, log := log }
  | (Except.error e, log) => { outcome := FDOutcome.exn e, log := log }

/-- Python `', '.join(xs)`. -/
def pyJoinCommaSpace : List String → String
  | [] => ""
  | [s] => s
  | s :: rest => s ++ ", " ++ pyJoinCommaSpace rest

/-- One row of the `MISSING_STUDIES_SQL` set-difference query:
`P.PUBMED_ID, S.ID AS STUDY_ID, S.ACCESSION_ID`. -/
structure MissingStudyRow where
  pubmed_id : String
  study_id : String
  accession_id : String
deriving Repr, DecidableEq

/-- `_find_data_errors`: runs the set-difference query (its result is the
`incorrect` parameter here), extracts the accession IDs (`study[2]`), and
appends a summary line plus the comma-joined accession list to
`studies_missing_data`. -/
def find_data_errors (incorrect : List MissingStudyRow) (log : List String) :
    List String :=
  log ++ ["Number of studies do not match. Missing trait information for accessions: ",
          pyJoinCommaSpace (incorrect.map (fun s => s.accession_id))]

/-- Result of `data_check`: whether the set-difference query was issued, and
the log afterwards. -/
structure DataCheckResult where
  queryIssued : Bool
  log : List String
deriving Repr, DecidableEq

/-- `data_check`: compares `self.total_studies` with `len(self.data)`; on
mismatch calls `_find_data_errors`, otherwise does nothing. -/
def data_check (total_studies dataLen : Nat) (incorrect : List MissingStudyRow)
    (log : List String) : DataCheckResult :=
  if total_studies ≠ dataLen then
    { queryIssued := true, log := find_data_errors incorrect log }
  else
    { queryIssued := false, log := log }

/-- A row is missing at least one of the six required fields
(`accession_id`, `reported_trait`, `author_fullname`, `title`,
`journal_name`, `publication_date`). -/
def requiredMissing (r : StudyRecord) : Bool :=
  r.accession_Id.isNone || r.reported_trait.isNone || r.author_fullname.isNone ||
  r.title.isNone || r.journal_name.isNone || r.date.isNone

/-- The field-presence combinations at which the loop body raises an uncaught
exception: a null concatenated into a message or description
(`accession_Id` null with `pmid` null; `initial_sample_size` null with
`author_fullname` or `pmid` null, reached only when `accession_Id` and
`reported_trait` are present), or a null `efo_short_form` reaching the
cross-reference split (all six required fields present and the description
stage passed). -/
def crashRow (r : StudyRecord) : Bool :=
  (r.accession_Id.isNone && r.pmid.isNone) ||
  (r.accession_Id.isSome && r.reported_trait.isSome && r.initial_sample_size.isNone &&
    (r.author_fullname.isNone || r.pmid.isNone)) ||
  (r.accession_Id.isSome && r.reported_trait.isSome && r.author_fullname.isSome &&
    r.title.isSome && r.journal_name.isSome && r.date.isSome &&
    (r.initial_sample_size.isSome || r.pmid.isSome) && r.efo_short_form.isNone)

/-- The entry a row contributes to `entries_list`, if any. -/
def emittedOf (r : StudyRecord) : Option IndexEntry :=
  match (processRow r).2 with
  | RowOutcome.emit e => some e
  | _ => none

/-- The inital-sample-size warning a row appends: present exactly when the
check at that line is reached (`accession_Id` and `reported_trait` present)
and `initial_sample_size` is null. -/
def sampleWarn (r : StudyRecord) : List String :=
  match r.accession_Id, r.reported_trait, r.initial_sample_size with
  | some acc, some _, none =>
      ["Accession: " ++ acc ++ " is missing inital sample size information."]
  | _, _, _ => []

/-- The log message for the first missing required field, in the source's
check order (none when no required field is missing, or when `accession_Id`
and `pmid` are both null so the message itself cannot be built). -/
def firstMissingMsg (r : StudyRecord) : Option String :=
  match r.accession_Id with
  | none => r.pmid.map (fun p => "PMID: " ++ p ++ " has a study missing an accession identifier.")
  | some acc =>
    if r.reported_trait.isNone then
      some ("Accession: " ++ acc ++ " is missing a reported trait annotation.")
    else if r.author_fullname.isNone then
      some ("Accession: " ++ acc ++ " is missing the First Author name.")
    else if r.title.isNone then
      some ("Accession: " ++ acc ++ " is missing a publication title.")
    else if r.journal_name.isNone then
      some ("Accession: " ++ acc ++ " is missing a journal name.")
    else if r.date.isNone then
      some ("Accession: " ++ acc ++ " is missing a publication date.")
    else none

/-! ### Concrete example rows -/

/-- A fully populated row; every column is present. -/
def rowComplete : StudyRecord :=
  { pmid := some "123", title := some "Example title", date := some ⟨2020, 1, 2⟩,
    journal_name := some "Example journal", study_Id := some "1",
    accession_Id := some "GCST1", initial_sample_size := some "100 cases",
    author_fullname := some "Smith A", reported_trait := some "Example trait",
    efo_short_form := some "EFO_1, EFO_2" }

/-- The entry `format_data` builds from `rowComplete`. -/
def rowCompleteEntry : IndexEntry :=
  { fields := [⟨"id", "GCST1"⟩, ⟨"reported_trait", "Example trait"⟩,
               ⟨"description", "Study of 100 cases"⟩, ⟨"first_author", "Smith A"⟩,
               ⟨"publication_title", "Example title"⟩, ⟨"journal_name", "Example journal"⟩,
               ⟨"publication_date", "2020/01/02"⟩,
               ⟨"url", "https://www.ebi.ac.uk/gwas/studies/GCST1"⟩],
    cross_references := [⟨"123", "PUBMED"⟩, ⟨"EFO_1", "EFO"⟩, ⟨"EFO_2", "EFO"⟩] }

/-- `rowComplete` with a null accession (PubMed ID still present). -/
def rowNoAccession : StudyRecord := { rowComplete with accession_Id := none }

/-- `rowComplete` with both the accession and the PubMed ID null. -/
def rowNullAccessionNullPmid : StudyRecord :=
  { rowComplete with accession_Id := none, pmid := none }

/-- `rowComplete` with a null title and a null initial sample size. -/
def rowNullTitleNullSample : StudyRecord :=
  { rowComplete with title := none, initial_sample_size := none }

/-- `rowComplete` with a null PubMed ID only. -/
def rowNullPmid : StudyRecord := { rowComplete with pmid := none }

/-- `rowComplete` with null initial sample size and null PubMed ID
(all six required fields present). -/
def rowNullSampleNullPmid : StudyRecord :=
  { rowComplete with initial_sample_size := none, pmid := none }

/-- `rowComplete` with a null initial sample size only. -/
def rowNullSample : StudyRecord := { rowComplete with initial_sample_size := none }

/-! ### Per-row lemmas about the loop body -/

/-- When none of the null-concatenation conditions of `crashRow` holds,
the loop body raises no exception. -/
theorem processRow_not_crash (r : StudyRecord) (h : crashRow r = false) :
    ∀ e, (processRow r).2 ≠ RowOutcome.crash e := by
  obtain ⟨pm, ti, da, jo, sid, ac, iss, au, rt, ef⟩ := r
  cases pm <;> cases ti <;> cases da <;> cases jo <;> cases ac <;> cases iss <;>
    cases au <;> cases rt <;> cases ef <;>
    simp_all [processRow, processRowTail, crashRow]

/-- A crash-free row missing a required field is skipped, and its appended
messages are exactly the first-missing-field message, preceded by the
inital-sample-size warning when that check was reached and triggered. -/
theorem processRow_skip_char (r : StudyRecord) (h : crashRow r = false)
    (hm : requiredMissing r = true) :
    (processRow r).2 = RowOutcome.skip ∧
    ∃ m, firstMissingMsg r = some m ∧ (processRow r).1 = sampleWarn r ++ [m] := by
  obtain ⟨pm, ti, da, jo, sid, ac, iss, au, rt, ef⟩ := r
  cases pm <;> cases ti <;> cases da <;> cases jo <;> cases ac <;> cases iss <;>
    cases au <;> cases rt <;> cases ef <;>
    simp_all [processRow, processRowTail, crashRow, requiredMissing, firstMissingMsg, sampleWarn]

/-- Shape of every emitted entry: all six required fields were present, the
`fields` list is the fixed 8-field list in source order, and the
cross-references are the optional PubMed pair followed by one EFO pair per
token of the split mapped-trait string. -/
theorem processRow_emit_shape (r : StudyRecord) (e : IndexEntry)
    (h : (processRow r).2 = RowOutcome.emit e) :
    ∃ acc rt desc au ti jo d efo,
      r.accession_Id = some acc ∧ r.reported_trait = some rt ∧ r.author_fullname = some au ∧
      r.title = some ti ∧ r.journal_name = some jo ∧ r.date = some d ∧
      r.efo_short_form = some efo ∧
      e.fields = [⟨"id", acc⟩, ⟨"reported_trait", rt⟩, ⟨"description", desc⟩, ⟨"first_author", au⟩,
                  ⟨"publication_title", ti⟩, ⟨"journal_name", jo⟩, ⟨"publication_date", strftimeYMD d⟩,
                  ⟨"url", url_published_field_prefix ++ acc⟩] ∧
      e.cross_references = (match r.pmid with | none => [] | some p => [⟨p, "PUBMED"⟩]) ++
        (pySplitCommaSpace efo).map (fun t => Xref.mk t "EFO") := by
  obtain ⟨pm, ti, da, jo, sid, ac, iss, au, rt, ef⟩ := r
  cases pm <;> cases ti <;> cases da <;> cases jo <;> cases ac <;> cases iss <;>
    cases au <;> cases rt <;> cases ef <;>
    simp_all [processRow, processRowTail] <;> (subst h; exact ⟨⟨_, rfl⟩, rfl⟩)

/-- A crash-free row with all six required fields present is emitted, and the
only message it may append is the inital-sample-size warning. -/
theorem processRow_emit_of_complete (r : StudyRecord) (h : crashRow r = false)
    (hm : requiredMissing r = false) :
    ∃ e, (processRow r).2 = RowOutcome.emit e ∧ (processRow r).1 = sampleWarn r := by
  obtain ⟨pm, ti, da, jo, sid, ac, iss, au, rt, ef⟩ := r
  cases pm <;> cases ti <;> cases da <;> cases jo <;> cases ac <;> cases iss <;>
    cases au <;> cases rt <;> cases ef <;>
    simp_all [processRow, processRowTail, crashRow, requiredMissing, sampleWarn]

/-! ### Lemmas about the whole loop -/

/-- The loop only appends to the shared log, on every path, crashes included. -/
theorem formatLoop_log_append (rows : List StudyRecord) :
    ∀ log acc, ∃ d, (formatLoop rows log acc).2 = log ++ d := by
  induction rows with
  | nil => exact fun log acc => ⟨[], by simp [formatLoop]⟩
  | cons r rest ih =>
    intro log acc
    rcases hpr : processRow r with ⟨msgs, out⟩
    cases out with
    | crash e => exact ⟨msgs, by simp [formatLoop, hpr]⟩
    | skip =>
      obtain ⟨d, hd⟩ := ih (log ++ msgs) acc
      exact ⟨msgs ++ d, by simp [formatLoop, hpr, hd]⟩
    | emit e =>
      obtain ⟨d, hd⟩ := ih (log ++ msgs) (acc ++ [e])
      exact ⟨msgs ++ d, by simp [formatLoop, hpr, hd]⟩

theorem formatLoop_no_crash (rows : List StudyRecord)
    (h : ∀ r ∈ rows, ∀ e, (processRow r).2 ≠ RowOutcome.crash e) :
    ∀ log acc, formatLoop rows log acc =
      (Except.ok (acc ++ rows.filterMap emittedOf),
       log ++ rows.flatMap (fun r => (processRow r).1)) := by
  induction rows with
  | nil => intro log acc; simp [formatLoop]
  | cons r rest ih =>
    intro log acc
    have hrest := ih (fun x hx e => h x (List.mem_cons_of_mem r hx) e)
    rcases hpr : processRow r with ⟨msgs, out⟩
    cases out with
    | crash e =>
      exact absurd (by rw [hpr]) (h r (List.mem_cons_self r rest) e)
    | skip =>
      have he : emittedOf r = none := by simp [emittedOf, hpr]
      simp [formatLoop, hpr, hrest, he, List.filterMap_cons, hpr, List.append_assoc]
    | emit e =>
      have he : emittedOf r = some e := by simp [emittedOf, hpr]
      simp [formatLoop, hpr, hrest, he, List.filterMap_cons, List.append_assoc]

theorem emittedOf_isSome (r : StudyRecord) (h : crashRow r = false) :
    (emittedOf r).isSome = !requiredMissing r := by
  by_cases hm : requiredMissing r = true
  · obtain ⟨hs, _⟩ := processRow_skip_char r h hm
    simp [emittedOf, hs, hm]
  · have hm' : requiredMissing r = false := by
      revert hm; cases requiredMissing r <;> simp
    obtain ⟨e, he, _⟩ := processRow_emit_of_complete r h hm'
    simp [emittedOf, he, hm']

theorem filterMap_emittedOf_length (rows : List StudyRecord)
    (h : ∀ r ∈ rows, crashRow r = false) :
    (rows.filterMap emittedOf).length =
      (rows.filter (fun r => !requiredMissing r)).length := by
  induction rows with
  | nil => rfl
  | cons r rest ih =>
    have hr := emittedOf_isSome r (h r (List.mem_cons_self r rest))
    have ih' := ih (fun x hx => h x (List.mem_cons_of_mem r hx))
    cases he : emittedOf r with
    | none =>
      rw [he] at hr
      simp only [Option.isSome_none] at hr
      have hm : requiredMissing r = true := by
        revert hr; cases requiredMissing r <;> simp
      simp [List.filterMap_cons, he, List.filter_cons, hm, ih']
    | some e =>
      rw [he] at hr
      simp only [Option.isSome_some] at hr
      have hm : requiredMissing r = false := by
        revert hr; cases requiredMissing r <;> simp
      simp [List.filterMap_cons, he, List.filter_cons, hm, ih']

/-! ### Claim theorems, counterexamples and witnesses -/

/-- When no row triggers an uncaught exception, `format_data` returns the
document whose entries are the emitted rows in order, and the log extended by
each row's messages in order. -/
theorem format_data_no_crash (today : String) (rows : List StudyRecord) (log0 : List String)
    (h : ∀ r ∈ rows, crashRow r = false) :
    format_data today rows log0 =
      { outcome := FDOutcome.ok
          { populate_header_data rows.length today with entries := rows.filterMap emittedOf },
        log := log0 ++ rows.flatMap (fun r => (processRow r).1) } := by
  have hnc : ∀ r ∈ rows, ∀ e, (processRow r).2 ≠ RowOutcome.crash e :=
    fun r hr => processRow_not_crash r (h r hr)
  have hfl := formatLoop_no_crash rows hnc log0 []
  simp [format_data, hfl]

/-- The log `format_data` leaves behind is the loop's log, on both the normal
and the aborted path. -/
theorem format_data_log_eq (today : String) (rows : List StudyRecord) (log0 : List String) :
    (format_data today rows log0).log = (formatLoop rows log0 []).2 := by
  unfold format_data
  rcases hfl : formatLoop rows log0 [] with ⟨out, lg⟩
  cases out <;> simp [hfl]

/-- C1 (code bug witnessed): on a two-row input whose second row is skipped for
a missing accession, the produced header has `entry_count = 2` (the fetched row
count, from `len(self.data)`) while only one entry is emitted — the code
violates the invariant that `entry_count` equal the number of emitted
entries. -/
theorem C1_entry_count_counts_skipped_rows :
    ∃ doc, (format_data "22-04-2020" [rowComplete, rowNoAccession] []).outcome = FDOutcome.ok doc ∧
      doc.entry_count = 2 ∧ doc.entries.length = 1 ∧ doc.entry_count ≠ doc.entries.length :=
  ⟨_, rfl, rfl, rfl, by decide⟩

/-- C2 counterexample: a row whose `accession_Id` and `pmid` are both null
makes `format_data` raise (the TypeError of `'PMID: ' + None`), so a
missing-field error is not always non-fatal. -/
theorem C2_counterexample_raises :
    (format_data "22-04-2020" [rowNullAccessionNullPmid] []).outcome =
      FDOutcome.exn "TypeError" := rfl

/-- C2 (amended): for rows in which no log/description concatenation meets a
null (`crashRow` is false: `pmid` present when `accession_Id` is null;
`author_fullname` and `pmid` present when `initial_sample_size` is null;
`efo_short_form` present when the cross-reference stage is reached),
missing-field errors are non-fatal: `format_data` completes, each
required-missing row is excluded from the emitted entries (the entry count is
the count of rows with no required field missing) and appends at least one
text message to the accumulated log. -/
theorem C2_missing_field_nonfatal (today : String) (rows : List StudyRecord)
    (log0 : List String) (h : ∀ r ∈ rows, crashRow r = false) :
    (∃ doc, (format_data today rows log0).outcome = FDOutcome.ok doc ∧
       doc.entries.length = (rows.filter (fun r => !requiredMissing r)).length) ∧
    (format_data today rows log0).log = log0 ++ rows.flatMap (fun r => (processRow r).1) ∧
    (∀ r ∈ rows, requiredMissing r = true → (processRow r).1 ≠ []) := by
  rw [format_data_no_crash today rows log0 h]
  refine ⟨⟨_, rfl, ?_⟩, rfl, ?_⟩
  · exact filterMap_emittedOf_length rows h
  · intro r hr hm
    obtain ⟨_, m, _, hmsg⟩ := processRow_skip_char r (h r hr) hm
    simp [hmsg]

/-- C2 witness: at the concrete crash-free row with a null accession, the run
completes and the log gains exactly that row's message. -/
theorem C2_witness :
    (format_data "22-04-2020" [rowNoAccession] []).log =
      [] ++ [rowNoAccession].flatMap (fun r => (processRow r).1) :=
  (C2_missing_field_nonfatal "22-04-2020" [rowNoAccession] [] (by decide)).2.1

/-- C3 counterexample: a row missing both `title` (required) and
`initial_sample_size` (optional) is skipped but appends TWO messages — the
sample-size warning plus the title message — not exactly one. -/
theorem C3_counterexample_two_messages :
    (processRow rowNullTitleNullSample).1 =
      ["Accession: GCST1 is missing inital sample size information.",
       "Accession: GCST1 is missing a publication title."] ∧
    (processRow rowNullTitleNullSample).2 = RowOutcome.skip := ⟨rfl, rfl⟩

/-- C3 (amended): a crash-free row missing at least one required field never
yields an entry (`emittedOf r = none`, and a singleton run emits an empty
entries list); its messages are exactly the message of the first missing
required field, preceded by the inital-sample-size warning when the
sample-size check was reached (accession and reported trait present) and
triggered. -/
theorem C3_skip_first_missing_message (r : StudyRecord) (h : crashRow r = false)
    (hm : requiredMissing r = true) :
    emittedOf r = none ∧
    (∃ m, firstMissingMsg r = some m ∧ (processRow r).1 = sampleWarn r ++ [m]) ∧
    ∀ today log0, ∃ doc,
      (format_data today [r] log0).outcome = FDOutcome.ok doc ∧ doc.entries = [] := by
  obtain ⟨hs, hmsg⟩ := processRow_skip_char r h hm
  have hnone : emittedOf r = none := by simp [emittedOf, hs]
  refine ⟨hnone, hmsg, ?_⟩
  intro today log0
  have hall : ∀ x ∈ [r], crashRow x = false := by
    intro x hx; simp at hx; subst hx; exact h
  rw [format_data_no_crash today [r] log0 hall]
  exact ⟨_, rfl, by simp [hnone]⟩

/-- C3 witness: the row with a null accession (PubMed ID present) is
crash-free, missing a required field, and yields no entry. -/
theorem C3_witness :
    crashRow rowNoAccession = false ∧ requiredMissing rowNoAccession = true ∧
    emittedOf rowNoAccession = none :=
  ⟨by decide, by decide,
   (C3_skip_first_missing_message rowNoAccession (by decide) (by decide)).1⟩

/-- C4 counterexample: for an emitted row whose `pmid` is null, the
cross-reference list holds only the two EFO pairs — no PubMed reference with
an empty dbkey is present, because the source appends `pmid_xref` only in the
else branch. -/
theorem C4_counterexample_no_pubmed_ref :
    (emittedOf rowNullPmid).map (fun e => e.cross_references) =
      some [Xref.mk "EFO_1" "EFO", Xref.mk "EFO_2" "EFO"] := rfl

/-- C4 (amended): an emitted entry's cross-references contain exactly one
PubMed pair, keyed by the row's PubMed ID, when the PubMed ID is present, and
NO PubMed pair at all when it is absent (the empty-dbkey reference is built
but never appended); an absent PubMed ID is tolerated and does not exclude
the record. -/
theorem C4_pubmed_xref (r : StudyRecord) :
    (∀ e, (processRow r).2 = RowOutcome.emit e →
       e.cross_references.filter (fun x => x.dbname == "PUBMED") =
         (match r.pmid with | none => [] | some p => [Xref.mk p "PUBMED"])) ∧
    (r.pmid = none → crashRow r = false → requiredMissing r = false →
       ∃ e, (processRow r).2 = RowOutcome.emit e) := by
  constructor
  · intro e h
    obtain ⟨acc, rt, desc, au, ti, jo, d, efo, h1, h2, h3, h4, h5, h6, h7, hf, hx⟩ :=
      processRow_emit_shape r e h
    rw [hx]
    rcases hp : r.pmid with _ | p <;>
      simp [List.filter_append, List.filter_map, Function.comp]
  · intro _ h hm
    obtain ⟨e, he, _⟩ := processRow_emit_of_complete r h hm
    exact ⟨e, he⟩

/-- C4 witness: the complete example row's entry carries exactly the PubMed
pair keyed by its PubMed ID. -/
theorem C4_witness :
    rowCompleteEntry.cross_references.filter (fun x => x.dbname == "PUBMED") =
      [Xref.mk "123" "PUBMED"] :=
  ((C4_pubmed_xref rowComplete).1 rowCompleteEntry rfl).trans rfl

/-- C5: every emitted entry has exactly one EFO cross-reference pair per token
of its row's mapped-trait string split on the exact delimiter ", ". -/
theorem C5_efo_pair_count (r : StudyRecord) (e : IndexEntry)
    (h : (processRow r).2 = RowOutcome.emit e) :
    ∃ s, r.efo_short_form = some s ∧
      (e.cross_references.filter (fun x => x.dbname == "EFO")).length =
        (pySplitCommaSpace s).length := by
  obtain ⟨acc, rt, desc, au, ti, jo, d, efo, h1, h2, h3, h4, h5, h6, h7, hf, hx⟩ :=
    processRow_emit_shape r e h
  refine ⟨efo, h7, ?_⟩
  rw [hx]
  rcases hp : r.pmid with _ | p <;>
    simp [List.filter_append, List.filter_map, Function.comp]

/-- C5 witness: on the complete example row the EFO pair count equals the
token count of its mapped-trait string. -/
theorem C5_witness :
    (rowCompleteEntry.cross_references.filter (fun x => x.dbname == "EFO")).length =
      (pySplitCommaSpace "EFO_1, EFO_2").length := by
  obtain ⟨s, hs, hlen⟩ := C5_efo_pair_count rowComplete rowCompleteEntry rfl
  injection hs with hseq
  rw [← hseq] at hlen
  exact hlen

/-- C6 counterexample: a row with all six required fields present but null
`initial_sample_size` and null `pmid` does not appear in the output — the
description concatenation raises TypeError and aborts the run. -/
theorem C6_counterexample_crash :
    requiredMissing rowNullSampleNullPmid = false ∧
    (format_data "22-04-2020" [rowNullSampleNullPmid] []).outcome =
      FDOutcome.exn "TypeError" := ⟨rfl, rfl⟩

/-- C6 (amended): for a row with all six required fields and `efo_short_form`
present: when `initial_sample_size` is null and `pmid` is present, the row is
still emitted with description "Study published by {author}, PMID: {pmid}"
and the sample-size warning is its one appended message; when
`initial_sample_size` is present the description is "Study of {sample
size}". -/
theorem C6_description_and_warning (r : StudyRecord) (acc au p : String)
    (hreq : requiredMissing r = false) (hefo : r.efo_short_form.isSome = true)
    (hacc : r.accession_Id = some acc) (hau : r.author_fullname = some au) :
    (r.pmid = some p → r.initial_sample_size = none →
       ∃ e, (processRow r).2 = RowOutcome.emit e ∧
         NamedField.mk "description" ("Study published by " ++ au ++ ", PMID: " ++ p) ∈ e.fields ∧
         (processRow r).1 =
           ["Accession: " ++ acc ++ " is missing inital sample size information."]) ∧
    (∀ s, r.initial_sample_size = some s →
       ∃ e, (processRow r).2 = RowOutcome.emit e ∧
         NamedField.mk "description" ("Study of " ++ s) ∈ e.fields) := by
  obtain ⟨pm, ti, da, jo, sid, ac, iss, au2, rt, ef⟩ := r
  cases pm <;> cases ti <;> cases da <;> cases jo <;> cases ac <;> cases iss <;>
    cases au2 <;> cases rt <;> cases ef <;>
    simp_all [processRow, processRowTail, requiredMissing]

/-- C6 witness: the concrete row with only the sample size null appends
exactly the warning message. -/
theorem C6_witness :
    (processRow rowNullSample).1 =
      ["Accession: GCST1 is missing inital sample size information."] := by
  obtain ⟨e, he, hmem, hlog⟩ :=
    (C6_description_and_warning rowNullSample "GCST1" "Smith A" "123"
      (by decide) rfl rfl rfl).1 rfl rfl
  exact hlog

/-- C7: every emitted entry's `fields` list consists of exactly the 8 named
fields in the documented order: id, reported_trait, description,
first_author, publication_title, journal_name, publication_date, url. -/
theorem C7_fields_fixed (r : StudyRecord) (e : IndexEntry)
    (h : (processRow r).2 = RowOutcome.emit e) :
    e.fields.map (fun f => f.name) =
      ["id", "reported_trait", "description", "first_author", "publication_title",
       "journal_name", "publication_date", "url"] := by
  obtain ⟨acc, rt, desc, au, ti, jo, d, efo, h1, h2, h3, h4, h5, h6, h7, hf, hx⟩ :=
    processRow_emit_shape r e h
  rw [hf]
  rfl

/-- C7 witness: the complete example row's entry has the 8 field names in
order. -/
theorem C7_witness :
    rowCompleteEntry.fields.map (fun f => f.name) =
      ["id", "reported_trait", "description", "first_author", "publication_title",
       "journal_name", "publication_date", "url"] :=
  C7_fields_fixed rowComplete rowCompleteEntry rfl

/-- C8: `data_check` with equal counts leaves the log untouched and issues no
further query; with unequal counts it issues the set-difference query and
appends the summary message plus the comma-joined accession list; it is a
total function, so the mismatch never fails the run. -/
theorem C8_data_check_behaviour (total dataLen : Nat) (incorrect : List MissingStudyRow)
    (log : List String) :
    (total = dataLen →
       data_check total dataLen incorrect log = { queryIssued := false, log := log }) ∧
    (total ≠ dataLen →
       data_check total dataLen incorrect log =
         { queryIssued := true,
           log := log ++
             ["Number of studies do not match. Missing trait information for accessions: ",
              pyJoinCommaSpace (incorrect.map (fun s => s.accession_id))] }) := by
  constructor
  · intro h; simp [data_check, h]
  · intro h; simp [data_check, h, find_data_errors]

/-- C8 witness: a concrete mismatch (total 2, rows 1) appends the summary and
the joined accession list to the existing log. -/
theorem C8_witness :
    data_check 2 1 [⟨"42", "7", "GCST9"⟩] ["m"] =
      { queryIssued := true,
        log := ["m", "Number of studies do not match. Missing trait information for accessions: ",
                "GCST9"] } :=
  ((C8_data_check_behaviour 2 1 [⟨"42", "7", "GCST9"⟩] ["m"]).2 (by decide)).trans rfl

/-- C9: for every emitted entry with a non-null PubMed ID, the
cross-reference list is exactly the PubMed pair followed by the EFO pairs in
mapped-trait token order, so the PubMed pair comes first and the length is
1 plus the token count. -/
theorem C9_xref_structure (r : StudyRecord) (e : IndexEntry) (p : String)
    (h : (processRow r).2 = RowOutcome.emit e) (hp : r.pmid = some p) :
    ∃ s, r.efo_short_form = some s ∧
      e.cross_references =
        Xref.mk p "PUBMED" :: (pySplitCommaSpace s).map (fun t => Xref.mk t "EFO") ∧
      e.cross_references.length = 1 + (pySplitCommaSpace s).length := by
  obtain ⟨acc, rt, desc, au, ti, jo, d, efo, h1, h2, h3, h4, h5, h6, h7, hf, hx⟩ :=
    processRow_emit_shape r e h
  rw [hp] at hx
  refine ⟨efo, h7, ?_, ?_⟩
  · rw [hx]; rfl
  · rw [hx]; simp [Nat.add_comm]

/-- C9 witness: the complete example row's cross-references are the PubMed
pair followed by its EFO pairs. -/
theorem C9_witness :
    rowCompleteEntry.cross_references =
      Xref.mk "123" "PUBMED" ::
        (pySplitCommaSpace "EFO_1, EFO_2").map (fun t => Xref.mk t "EFO") := by
  obtain ⟨s, hs, hlist, _⟩ := C9_xref_structure rowComplete rowCompleteEntry "123" rfl rfl
  injection hs with hseq
  rw [← hseq] at hlist
  exact hlist

/-- C10: the missing-data log is append-only: `format_data` (even when it
aborts), `_find_data_errors` and `data_check` only extend the incoming log
with new messages; and because `studies_missing_data` is shared class-level
state, a second `format_data` run starting from the first run's log reports
the first run's messages followed by its own. -/
theorem C10_log_append_only (today today2 : String) (rows rows2 : List StudyRecord)
    (log0 : List String) (total dataLen : Nat) (incorrect : List MissingStudyRow) :
    (∃ d, (format_data today rows log0).log = log0 ++ d) ∧
    (∃ d, find_data_errors incorrect log0 = log0 ++ d) ∧
    (∃ d, (data_check total dataLen incorrect log0).log = log0 ++ d) ∧
    (∃ d, (format_data today2 rows2 ((format_data today rows log0).log)).log =
            (format_data today rows log0).log ++ d) := by
  refine ⟨?_, ⟨_, rfl⟩, ?_, ?_⟩
  · obtain ⟨d, hd⟩ := formatLoop_log_append rows log0 []
    exact ⟨d, by rw [format_data_log_eq, hd]⟩
  · by_cases h : total ≠ dataLen
    · refine ⟨["Number of studies do not match. Missing trait information for accessions: ",
               pyJoinCommaSpace (incorrect.map (fun s => s.accession_id))], ?_⟩
      simp [data_check, h, find_data_errors]
    · exact ⟨[], by simp [data_check, h]⟩
  · obtain ⟨d, hd⟩ := formatLoop_log_append rows2 ((format_data today rows log0).log) []
    exact ⟨d, by rw [format_data_log_eq, hd]⟩

end EbiSearchIndex
